import Mathlib

/-!
Verification of the glitch-machine-engine orchestrator (`src/server/main.py`).

The file shallowly embeds the per-session control loop
(`handle_websocket_data`), the settings-fusion routine
(`App._update_acid_settings`) and the streaming loop (`generate` inside the
`/api/stream` route).  Scalars that are Python floats are modelled as `ℚ`:
none of the properties below depend on rounding, only on which value flows
where.  A JSON key being present in a dict is modelled as an `Option` being
`some`; the one field the code also null-tests (`binned_fft`, line 235) is an
`Option (Option _)`, the outer layer for key presence and the inner for a
JSON `null`.
-/

/-- Modelled from the spec: the zoom test oscillator
(`modules/utils/test_oscillators.py` is not under `src/`).  The orchestrator
only reads its `enabled` flag, calls `update` to obtain the computed value for
the tick, and toggles it via `set_enabled`; the spec describes it as a
deterministic sweep holding a current phase/value, which we model as the value
advancing by a fixed increment on each `update`. -/
structure ZoomOscillator where
  enabled : Bool
  value : ℚ
  increment : ℚ
deriving DecidableEq

def ZoomOscillator.update (o : ZoomOscillator) : ZoomOscillator × ℚ :=
  let v := o.value + o.increment
  ({ o with value := v }, v)

def ZoomOscillator.set_enabled (o : ZoomOscillator) (b : Bool) : ZoomOscillator :=
  { o with enabled := b }

/-- Modelled from the spec: the x/y shift test oscillator
(`modules/utils/test_oscillators.py` is not under `src/`).  The orchestrator
reads `enabled`, calls `update` for the pair of shift values, and adjusts the
increments via `set_increments` (each keyword argument optional). -/
structure ShiftOscillator where
  enabled : Bool
  x : ℚ
  y : ℚ
  x_increment : ℚ
  y_increment : ℚ
deriving DecidableEq

def ShiftOscillator.update (o : ShiftOscillator) : ShiftOscillator × ℚ × ℚ :=
  let nx := o.x + o.x_increment
  let ny := o.y + o.y_increment
  ({ o with x := nx, y := ny }, nx, ny)

def ShiftOscillator.set_enabled (o : ShiftOscillator) (b : Bool) : ShiftOscillator :=
  { o with enabled := b }

def ShiftOscillator.set_increments (o : ShiftOscillator) (xi yi : Option ℚ) :
    ShiftOscillator :=
  { o with x_increment := xi.getD o.x_increment, y_increment := yi.getD o.y_increment }

/-- Modelled from the spec: the audio-reactive zoom controller
(`modules/acid_audio_controller.py` is not under `src/`).  Per the spec it
keeps a baseline window and per-band sensitivities and returns a new zoom
value, clamped to `[min_zoom, max_zoom]`, for each batch of frequency bins;
the orchestrator's claims depend only on `enabled`, on `set_sensitivity`, and
on `process_frequency_bins` returning a value computed from its state and the
bins, so the concrete dynamics here are a simple deterministic stand-in. -/
structure FreqZoomController where
  enabled : Bool
  low_bin_sensitivity : ℚ
  high_bin_sensitivity : ℚ
  min_zoom : ℚ
  max_zoom : ℚ
  baseline : ℚ
  amplifying_factor : ℚ
deriving DecidableEq

def FreqZoomController.process_frequency_bins (c : FreqZoomController)
    (bins : List ℚ) : FreqZoomController × ℚ :=
  let energy := bins.foldl (fun a b => a + b) 0
  let z := min c.max_zoom (max c.min_zoom (1 + c.low_bin_sensitivity * (energy - c.baseline)))
  ({ c with baseline := (c.baseline + energy) / 2 }, z)

def FreqZoomController.set_sensitivity (c : FreqZoomController)
    (low high : Option ℚ) : FreqZoomController :=
  { c with low_bin_sensitivity := low.getD c.low_bin_sensitivity,
           high_bin_sensitivity := high.getD c.high_bin_sensitivity }

/-- Settings held by the `InputImageProcessor` collaborator; the orchestrator
only ever writes them through the setters mirrored in `update_acid_settings`
(`main.py` lines 355-364). -/
structure InputProcState where
  human_seg : Bool
  resizing_factor : ℚ
  blur : Bool
  brightness : ℚ
  infrared_colorize : Bool
deriving DecidableEq

/-- Settings held by the `AcidProcessor` collaborator, written through the
setters mirrored in `update_acid_settings` (`main.py` lines 367-385) and by
the oscillator / audio-controller paths of the control loop. -/
structure AcidState where
  acid_strength : ℚ
  coef_noise : ℚ
  acid_tracers : Bool
  acid_strength_foreground : ℚ
  zoom_factor : ℚ
  x_shift : ℚ
  y_shift : ℚ
  do_acid_wobblers : Bool
  color_matching : ℚ
deriving DecidableEq

def AcidState.set_zoom_factor (a : AcidState) (v : ℚ) : AcidState :=
  { a with zoom_factor := v }

def AcidState.set_x_shift (a : AcidState) (v : ℚ) : AcidState :=
  { a with x_shift := v }

def AcidState.set_y_shift (a : AcidState) (v : ℚ) : AcidState :=
  { a with y_shift := v }

/-- The modulation state of the `App` object.  In `main.py` these live as
`self.input_processor`, `self.acid_processor`, `self.frequency_zoom_controller`,
`self.zoom_oscillator` and `self.shift_oscillator` on the single `App`
instance created at module load (line 438): there is one such state for the
whole process, not one per session. -/
structure ModState where
  inputProc : InputProcState
  acid : AcidState
  zoomOsc : ZoomOscillator
  shiftOsc : ShiftOscillator
  freqZoom : FreqZoomController
deriving DecidableEq

/-- The `acid_settings` sub-object of a parameter payload (`main.py` lines
349-405).  `some` marks the key as present; any field the frontend omitted is
`none`.  `binned_fft` may also be present with a JSON `null` value, which the
code null-tests at line 235, hence the nested `Option`. -/
structure AcidSettings where
  do_human_seg : Option Bool
  resizing_factor : Option ℚ
  do_blur : Option Bool
  brightness : Option ℚ
  do_infrared_colorize : Option Bool
  acid_strength : Option ℚ
  coef_noise : Option ℚ
  do_acid_tracers : Option Bool
  acid_strength_foreground : Option ℚ
  zoom_factor : Option ℚ
  x_shift : Option ℚ
  y_shift : Option ℚ
  do_acid_wobblers : Option Bool
  color_matching : Option ℚ
  low_bin_sensitivity : Option ℚ
  high_bin_sensitivity : Option ℚ
  use_test_zoom : Option Bool
  use_test_shift : Option Bool
  test_x_shift_increment : Option ℚ
  test_y_shift_increment : Option ℚ
  binned_fft : Option (Option (List ℚ))
deriving DecidableEq

/-- A settings sub-object with every key absent. -/
def AcidSettings.empty : AcidSettings :=
  ⟨none, none, none, none, none, none, none, none, none, none, none,
   none, none, none, none, none, none, none, none, none, none⟩

/-- Apply an optionally-present setting: the body of each
`if "key" in settings: self.x.set_key(settings["key"])` block. -/
def optUpd {α β : Type} (o : Option α) (f : β → α → β) (b : β) : β :=
  match o with
  | some v => f b v
  | none => b

/-- Input-processor block of `_update_acid_settings` (`main.py` lines
355-364), in source order. -/
def uas_input (m : ModState) (s : AcidSettings) : ModState :=
  let m := optUpd s.do_human_seg (fun m v => { m with inputProc.human_seg := v }) m
  let m := optUpd s.resizing_factor (fun m v => { m with inputProc.resizing_factor := v }) m
  let m := optUpd s.do_blur (fun m v => { m with inputProc.blur := v }) m
  let m := optUpd s.brightness (fun m v => { m with inputProc.brightness := v }) m
  let m := optUpd s.do_infrared_colorize (fun m v => { m with inputProc.infrared_colorize := v }) m
  m

/-- Acid-processor block of `_update_acid_settings` before the zoom guard
(`main.py` lines 367-374), in source order. -/
def uas_acid_pre (m : ModState) (s : AcidSettings) : ModState :=
  let m := optUpd s.acid_strength (fun m v => { m with acid.acid_strength := v }) m
  let m := optUpd s.coef_noise (fun m v => { m with acid.coef_noise := v }) m
  let m := optUpd s.do_acid_tracers (fun m v => { m with acid.acid_tracers := v }) m
  let m := optUpd s.acid_strength_foreground
    (fun m v => { m with acid.acid_strength_foreground := v }) m
  m

/-- The guarded direct-zoom write of `_update_acid_settings` (`main.py` lines
375-377): a direct `zoom_factor` is applied only when the same settings
object carries no `binned_fft` key; no other condition (in particular no
oscillator toggle) guards it. -/
def uas_zoom (m : ModState) (s : AcidSettings) : ModState :=
  if s.zoom_factor.isSome ∧ s.binned_fft = none then
    { m with acid := m.acid.set_zoom_factor (s.zoom_factor.getD m.acid.zoom_factor) }
  else m

/-- Acid-processor block of `_update_acid_settings` after the zoom guard
(`main.py` lines 378-385), in source order. -/
def uas_acid_post (m : ModState) (s : AcidSettings) : ModState :=
  let m := optUpd s.x_shift (fun m v => { m with acid := m.acid.set_x_shift v }) m
  let m := optUpd s.y_shift (fun m v => { m with acid := m.acid.set_y_shift v }) m
  let m := optUpd s.do_acid_wobblers (fun m v => { m with acid.do_acid_wobblers := v }) m
  let m := optUpd s.color_matching (fun m v => { m with acid.color_matching := v }) m
  m

/-- Sensitivity block of `_update_acid_settings` (`main.py` lines 388-395):
when either sensitivity key is present, both are forwarded (absent one as
`None`) to the controller's `set_sensitivity`. -/
def uas_freq (m : ModState) (s : AcidSettings) : ModState :=
  if s.low_bin_sensitivity.isSome ∨ s.high_bin_sensitivity.isSome then
    { m with freqZoom :=
        m.freqZoom.set_sensitivity s.low_bin_sensitivity s.high_bin_sensitivity }
  else m

/-- Test-oscillator block of `_update_acid_settings` (`main.py` lines
398-405), in source order. -/
def uas_osc (m : ModState) (s : AcidSettings) : ModState :=
  let m := optUpd s.use_test_zoom (fun m v => { m with zoomOsc := m.zoomOsc.set_enabled v }) m
  let m := optUpd s.use_test_shift (fun m v => { m with shiftOsc := m.shiftOsc.set_enabled v }) m
  let m := optUpd s.test_x_shift_increment
    (fun m v => { m with shiftOsc := m.shiftOsc.set_increments (some v) none }) m
  let m := optUpd s.test_y_shift_increment
    (fun m v => { m with shiftOsc := m.shiftOsc.set_increments none (some v) }) m
  m

/-- `App._update_acid_settings` (`main.py` lines 349-405): the early return
when the acid processor is off, then the five blocks above in their source
order. -/
def update_acid_settings (use_acid_processor : Bool) (m : ModState)
    (s : AcidSettings) : ModState :=
  if use_acid_processor = false then m else
  uas_osc (uas_freq (uas_acid_post (uas_zoom (uas_acid_pre (uas_input m s) s) s) s) s) s

/-- Opaque non-acid parameter fields of one payload; their schema belongs to
the external pipeline (`pipeline.InputParams`), so a placeholder record with
decidable value equality stands in for the JSON mapping. -/
structure BaseParams where
  prompt : String
  seed : Nat
deriving DecidableEq

/-- One `next_frame` parameter payload as received at `main.py` line 221,
split into the popped `acid_settings` sub-object (line 228), the remaining
pipeline fields, and (in image mode) the binary image payload received at
line 246, modelled as its byte list. -/
structure Update where
  acid_settings : Option AcidSettings
  base : BaseParams
  imageBytes : List Nat
deriving DecidableEq

/-- The `SimpleNamespace` written to the session's latest-parameters slot by
`update_data` (`main.py` line 261): the pipeline fields plus, in image mode,
the (collaborator-processed) image. -/
structure ParamSet where
  base : BaseParams
  image : Option (List Nat)
deriving DecidableEq

/-- The startup configuration fields of `Args` that the embedded loops read. -/
structure Config where
  use_acid_processor : Bool
  use_background_removal : Bool
  safety_checker : Bool
  input_mode_image : Bool
  timeout : ℚ
deriving DecidableEq

/-- Per-tick inputs that are not part of the client update: the server-side
microphone bins read at `main.py` line 204 when the controller is enabled. -/
structure TickInput where
  serverFft : List ℚ
  update : Update
deriving DecidableEq

/-- Statuses the control loop sends back over the control channel. -/
inductive Status where
  | timeout
  | wait
  | send_frame
deriving DecidableEq

/-- Result of handling one `next_frame` message pair: the modulation state
afterwards, the zoom factor in force when this tick's image was (or would have
been) acid-processed, the status sent back, and the slot write if any. -/
structure TickOutcome where
  m : ModState
  resolvedZoom : ℚ
  response : Status
  slotWrite : Option ParamSet
deriving DecidableEq

/-- The pre-receive modulation phase of each control-loop iteration
(`main.py` lines 189-215): apply the zoom oscillator, the shift oscillator
and, when audio-reactive mode is on, the server-side FFT bins (scaled by the
controller's `amplifying_factor`, line 206), each only when enabled. -/
def preReceive (cfg : Config) (m : ModState) (serverFft : List ℚ) : ModState :=
  if cfg.use_acid_processor = false then m else
  let m := if m.zoomOsc.enabled then
      let p := m.zoomOsc.update
      { m with zoomOsc := p.1, acid := m.acid.set_zoom_factor p.2 }
    else m
  let m := if m.shiftOsc.enabled then
      let p := m.shiftOsc.update
      { m with shiftOsc := p.1,
               acid := (m.acid.set_x_shift p.2.1).set_y_shift p.2.2 }
    else m
  if m.freqZoom.enabled then
    let bins := serverFft.map (fun b => m.freqZoom.amplifying_factor * b)
    let p := m.freqZoom.process_frequency_bins bins
    { m with freqZoom := p.1, acid := m.acid.set_zoom_factor p.2 }
  else m

/-- The settings-fusion phase of one message (`main.py` lines 227-241):
when the payload carries `acid_settings`, apply `update_acid_settings`,
then — only when a `binned_fft` key is present and the zoom oscillator is
disabled at that moment — feed the non-null bins to the audio controller and
install its output as the zoom factor. -/
def applyUpdateSettings (cfg : Config) (m : ModState) (u : Update) : ModState :=
  match u.acid_settings with
  | none => m
  | some s =>
    if cfg.use_acid_processor = false then m else
    let m := update_acid_settings cfg.use_acid_processor m s
    match s.binned_fft with
    | none => m
    | some ob =>
      if cfg.use_acid_processor ∧ m.zoomOsc.enabled = false then
        match ob with
        | none => m
        | some bins =>
          let p := m.freqZoom.process_frequency_bins bins
          { m with freqZoom := p.1, acid := m.acid.set_zoom_factor p.2 }
      else m

/-- One full `next_frame` handling tick of `handle_websocket_data`
(`main.py` lines 189-262), timeout check aside: pre-receive modulation, then
settings fusion, then — in image mode — the empty-payload test of line 247,
which answers `send_frame` and skips the slot write, and otherwise the image
pipeline (whose collaborators transform pixels we keep opaque) followed by
the slot write of line 261 and the `wait` acknowledgement of line 262. -/
def handleTick (cfg : Config) (m : ModState) (inp : TickInput) : TickOutcome :=
  let m := preReceive cfg m inp.serverFft
  let m := applyUpdateSettings cfg m inp.update
  if cfg.input_mode_image then
    if inp.update.imageBytes.length = 0 then
      { m := m, resolvedZoom := m.acid.zoom_factor,
        response := Status.send_frame, slotWrite := none }
    else
      { m := m, resolvedZoom := m.acid.zoom_factor,
        response := Status.wait,
        slotWrite := some { base := inp.update.base, image := some inp.update.imageBytes } }
  else
    { m := m, resolvedZoom := m.acid.zoom_factor,
      response := Status.wait,
      slotWrite := some { base := inp.update.base, image := none } }

/-- Session identities for expressing cross-session observations; two suffice. -/
inductive SessionId where
  | A
  | B
deriving DecidableEq

/-- Process-level state: one shared `ModState` (the single `App` instance's
processors and oscillators) and one latest-parameters slot per session (held
by the connection manager). -/
structure AppState where
  mod : ModState
  slotA : Option ParamSet
  slotB : Option ParamSet
deriving DecidableEq

def AppState.slot (app : AppState) : SessionId → Option ParamSet
  | SessionId.A => app.slotA
  | SessionId.B => app.slotB

/-- One control-loop tick executed on behalf of session `sid`: the modulation
state it reads and writes is the process-wide one; only the slot write is
per-session. -/
def handleTickFor (cfg : Config) (sid : SessionId) (app : AppState)
    (inp : TickInput) : AppState × TickOutcome :=
  let out := handleTick cfg app.mod inp
  let app := { app with mod := out.m }
  let app := match out.slotWrite with
    | none => app
    | some p =>
      match sid with
      | SessionId.A => { app with slotA := some p }
      | SessionId.B => { app with slotB := some p }
  (app, out)

/-- What `last_params` can hold in `generate` (`main.py` line 278): either the
fresh `SimpleNamespace()` it starts as, whose `__dict__` is the empty mapping
and therefore value-unequal to every real parameter namespace, or a
previously processed `ParamSet`. -/
inductive NS where
  | empty
  | ps (p : ParamSet)
deriving DecidableEq

/-- Observable actions of one streaming-loop iteration, in order of
occurrence. -/
inductive StreamEvent where
  | sendFrameSignal
  | sleepThrottle
  | invoke (p : ParamSet)
  | feedbackUpdate (p : ParamSet)
  | frame
  | errorEvent (s : String)
deriving DecidableEq

/-- One iteration of the streaming loop `generate` (`main.py` lines 280-313).
The iteration signals `send_frame`, reads the slot, and then evaluates
`params.__dict__ == last_params.__dict__ or params is None` (line 285): on an
empty (`None`) slot the attribute access on the left raises `AttributeError`
before the right disjunct is reached, so that branch ends the generator with
an error rather than sleeping.  On a slot equal to `last_params` it sleeps
for the throttle and retries.  Otherwise it invokes the pipeline once; a
safety flag (when the checker is configured) nulls the image so the
`image is None` test of line 296 skips both the feedback-buffer update of
line 303 and the frame emission; a surviving frame is emitted once, and again
for non-Firefox agents (line 310).  `safetyFlag` stands for the external
safety checker's verdict on the result of `pipeline.predict`. -/
def streamStep (cfg : Config) (safetyFlag : ParamSet → Bool) (firefox : Bool)
    (slot : Option ParamSet) (st : NS) : NS × List StreamEvent :=
  match slot with
  | none => (st, [StreamEvent.sendFrameSignal, StreamEvent.errorEvent "AttributeError"])
  | some p =>
    if NS.ps p = st then
      (st, [StreamEvent.sendFrameSignal, StreamEvent.sleepThrottle])
    else
      let st := NS.ps p
      if cfg.safety_checker ∧ safetyFlag p then
        (st, [StreamEvent.sendFrameSignal, StreamEvent.invoke p])
      else
        (st, [StreamEvent.sendFrameSignal, StreamEvent.invoke p]
          ++ (if cfg.use_acid_processor then [StreamEvent.feedbackUpdate p] else [])
          ++ [StreamEvent.frame]
          ++ (if firefox then [] else [StreamEvent.frame]))

/-- Count of pipeline invocations among a list of streaming events. -/
def countInvokes (es : List StreamEvent) : Nat :=
  (es.filter (fun e => match e with | StreamEvent.invoke _ => true | _ => false)).length

/-- Observable actions of the control loop's lifecycle, for the timeout
behaviour. -/
inductive CtrlEvent where
  | timeoutSent
  | disconnected
  | processed (t : ℚ)
deriving DecidableEq

/-- The timeout skeleton of `handle_websocket_data` (`main.py` lines
160-218).  `last_time` is set once, before the loop (line 160), and never
updated afterwards; each iteration first evaluates
`timeout > 0 and time.time() - last_time > timeout` (lines 164-167), sending
`{status: "timeout"}` and disconnecting when it holds, and otherwise blocks
in `conn_manager.receive_json` (line 218) until the session's next message.
Modelled from the spec for the part outside `src/`: `receive_json` lives in
`connection_manager.py`, which the spec describes as blocking awaiting the
next message.  `t0` is the value of `last_time`; `tNow` the wall-clock time
at the current iteration's check (message handling is treated as
instantaneous, so after processing a message that arrived at time `t` the
next check happens at `t`); `arrivals` the times of the session's remaining
incoming messages, in order.  When `arrivals` is exhausted the loop stays
blocked forever and produces no further event. -/
def ctrlRun (timeout : ℚ) (t0 : ℚ) : ℚ → List ℚ → List CtrlEvent
  | tNow, arrivals =>
    if 0 < timeout ∧ timeout < tNow - t0 then
      [CtrlEvent.timeoutSent, CtrlEvent.disconnected]
    else
      match arrivals with
      | [] => []
      | t :: rest => CtrlEvent.processed t :: ctrlRun timeout t0 t rest

/-- Fixture: input-processor settings as configured at startup. -/
def inputProc0 : InputProcState := ⟨true, 1, false, 1, false⟩

/-- Fixture: acid-processor settings as configured at startup
(`main.py` lines 72-80), zoom factor 1. -/
def acid0 : AcidState := ⟨11/100, 3/20, false, 11/100, 1, 0, 0, false, 1/2⟩

/-- Fixture: zoom oscillator, disabled, currently computing the value 1. -/
def zoomOsc0 : ZoomOscillator := ⟨false, 1, 0⟩

/-- Fixture: shift oscillator, disabled. -/
def shiftOsc0 : ShiftOscillator := ⟨false, 0, 0, 0, 0⟩

/-- Fixture: audio-reactive controller, disabled toggle, unit sensitivities,
zoom clamp [1, 2], zero baseline (`main.py` lines 99-110). -/
def freqZoom0 : FreqZoomController := ⟨false, 1, 1, 1, 2, 0, 100000⟩

/-- Fixture: modulation state with every toggle off. -/
def mod0 : ModState := ⟨inputProc0, acid0, zoomOsc0, shiftOsc0, freqZoom0⟩

/-- Fixture: same modulation state but with the zoom oscillator enabled. -/
def modOsc : ModState := { mod0 with zoomOsc := { zoomOsc0 with enabled := true } }

/-- Fixture: pipeline fields of a payload. -/
def base0 : BaseParams := ⟨"a cat", 42⟩

/-- Fixture: configuration with the acid processor on, image input mode,
safety checker off, timeout 10. -/
def cfg0 : Config := ⟨true, true, false, true, 10⟩

/-- Fixture: same configuration with the safety checker enabled. -/
def cfgSafe : Config := { cfg0 with safety_checker := true }

/-- Fixture: settings carrying only a direct zoom value, no `binned_fft`. -/
def sDirect : AcidSettings := { AcidSettings.empty with zoom_factor := some 7 }

/-- Fixture: settings carrying both a direct zoom value and frequency bins. -/
def sFft : AcidSettings :=
  { AcidSettings.empty with zoom_factor := some 7, binned_fft := some (some [1/2]) }

/-- Fixture: settings touching one representative field of each modulation
sub-state: input-processor brightness, acid strength, oscillator toggle, and
controller sensitivity. -/
def s9 : AcidSettings :=
  { AcidSettings.empty with
    brightness := some (3/2), acid_strength := some (1/4),
    use_test_zoom := some true, low_bin_sensitivity := some (1/5) }

/-- Fixture: tick carrying the direct-zoom settings and a 1-byte image. -/
def inpDirect : TickInput := ⟨[], ⟨some sDirect, base0, [1]⟩⟩

/-- Fixture: tick carrying the bins-plus-direct-zoom settings. -/
def inpFft : TickInput := ⟨[], ⟨some sFft, base0, [1]⟩⟩

/-- Fixture: tick carrying no acid settings. -/
def inpPlain : TickInput := ⟨[], ⟨none, base0, [1]⟩⟩

/-- Fixture: tick carrying the four-field settings and an empty image payload. -/
def inpEmpty9 : TickInput := ⟨[], ⟨some s9, base0, []⟩⟩

/-- Fixture: tick carrying no acid settings and an empty image payload. -/
def inpEmptyPlain : TickInput := ⟨[], ⟨none, base0, []⟩⟩

/-- Fixture: process state before any message, both slots empty. -/
def app0 : AppState := ⟨mod0, none, none⟩

/-- Fixture: a parameter set as written to the slot. -/
def pset0 : ParamSet := ⟨base0, some [1]⟩

/-- Fixture: a second, different parameter set. -/
def pset1 : ParamSet := ⟨{ base0 with seed := 43 }, some [2]⟩

theorem uas_input_acid (m : ModState) (s : AcidSettings) :
    (uas_input m s).acid = m.acid := by
  unfold uas_input
  cases s.do_human_seg <;> cases s.resizing_factor <;> cases s.do_blur <;>
    cases s.brightness <;> cases s.do_infrared_colorize <;> rfl

theorem uas_input_zoomOsc (m : ModState) (s : AcidSettings) :
    (uas_input m s).zoomOsc = m.zoomOsc := by
  unfold uas_input
  cases s.do_human_seg <;> cases s.resizing_factor <;> cases s.do_blur <;>
    cases s.brightness <;> cases s.do_infrared_colorize <;> rfl

theorem uas_input_freqZoom (m : ModState) (s : AcidSettings) :
    (uas_input m s).freqZoom = m.freqZoom := by
  unfold uas_input
  cases s.do_human_seg <;> cases s.resizing_factor <;> cases s.do_blur <;>
    cases s.brightness <;> cases s.do_infrared_colorize <;> rfl

theorem uas_input_brightness (m : ModState) (s : AcidSettings) (b : ℚ)
    (hb : s.brightness = some b) : (uas_input m s).inputProc.brightness = b := by
  unfold uas_input
  rw [hb]
  cases s.do_human_seg <;> cases s.resizing_factor <;> cases s.do_blur <;>
    cases s.do_infrared_colorize <;> rfl

theorem uas_acid_pre_zoom (m : ModState) (s : AcidSettings) :
    (uas_acid_pre m s).acid.zoom_factor = m.acid.zoom_factor := by
  unfold uas_acid_pre
  cases s.acid_strength <;> cases s.coef_noise <;> cases s.do_acid_tracers <;>
    cases s.acid_strength_foreground <;> rfl

theorem uas_acid_pre_strength (m : ModState) (s : AcidSettings) (a : ℚ)
    (ha : s.acid_strength = some a) :
    (uas_acid_pre m s).acid.acid_strength = a := by
  unfold uas_acid_pre
  rw [ha]
  cases s.coef_noise <;> cases s.do_acid_tracers <;>
    cases s.acid_strength_foreground <;> rfl

theorem uas_acid_pre_zoomOsc (m : ModState) (s : AcidSettings) :
    (uas_acid_pre m s).zoomOsc = m.zoomOsc := by
  unfold uas_acid_pre
  cases s.acid_strength <;> cases s.coef_noise <;> cases s.do_acid_tracers <;>
    cases s.acid_strength_foreground <;> rfl

theorem uas_acid_pre_freqZoom (m : ModState) (s : AcidSettings) :
    (uas_acid_pre m s).freqZoom = m.freqZoom := by
  unfold uas_acid_pre
  cases s.acid_strength <;> cases s.coef_noise <;> cases s.do_acid_tracers <;>
    cases s.acid_strength_foreground <;> rfl

theorem uas_acid_pre_inputProc (m : ModState) (s : AcidSettings) :
    (uas_acid_pre m s).inputProc = m.inputProc := by
  unfold uas_acid_pre
  cases s.acid_strength <;> cases s.coef_noise <;> cases s.do_acid_tracers <;>
    cases s.acid_strength_foreground <;> rfl

theorem uas_zoom_set (m : ModState) (s : AcidSettings) (v : ℚ)
    (hz : s.zoom_factor = some v) (hfft : s.binned_fft = none) :
    (uas_zoom m s).acid.zoom_factor = v := by
  unfold uas_zoom
  rw [if_pos ⟨by rw [hz]; rfl, hfft⟩, hz]
  rfl

theorem uas_zoom_strength (m : ModState) (s : AcidSettings) :
    (uas_zoom m s).acid.acid_strength = m.acid.acid_strength := by
  unfold uas_zoom
  split <;> rfl

theorem uas_zoom_zoomOsc (m : ModState) (s : AcidSettings) :
    (uas_zoom m s).zoomOsc = m.zoomOsc := by
  unfold uas_zoom
  split <;> rfl

theorem uas_zoom_freqZoom (m : ModState) (s : AcidSettings) :
    (uas_zoom m s).freqZoom = m.freqZoom := by
  unfold uas_zoom
  split <;> rfl

theorem uas_zoom_inputProc (m : ModState) (s : AcidSettings) :
    (uas_zoom m s).inputProc = m.inputProc := by
  unfold uas_zoom
  split <;> rfl

theorem uas_acid_post_zoom (m : ModState) (s : AcidSettings) :
    (uas_acid_post m s).acid.zoom_factor = m.acid.zoom_factor := by
  unfold uas_acid_post
  cases s.x_shift <;> cases s.y_shift <;> cases s.do_acid_wobblers <;>
    cases s.color_matching <;> rfl

theorem uas_acid_post_strength (m : ModState) (s : AcidSettings) :
    (uas_acid_post m s).acid.acid_strength = m.acid.acid_strength := by
  unfold uas_acid_post
  cases s.x_shift <;> cases s.y_shift <;> cases s.do_acid_wobblers <;>
    cases s.color_matching <;> rfl

theorem uas_acid_post_zoomOsc (m : ModState) (s : AcidSettings) :
    (uas_acid_post m s).zoomOsc = m.zoomOsc := by
  unfold uas_acid_post
  cases s.x_shift <;> cases s.y_shift <;> cases s.do_acid_wobblers <;>
    cases s.color_matching <;> rfl

theorem uas_acid_post_freqZoom (m : ModState) (s : AcidSettings) :
    (uas_acid_post m s).freqZoom = m.freqZoom := by
  unfold uas_acid_post
  cases s.x_shift <;> cases s.y_shift <;> cases s.do_acid_wobblers <;>
    cases s.color_matching <;> rfl

theorem uas_acid_post_inputProc (m : ModState) (s : AcidSettings) :
    (uas_acid_post m s).inputProc = m.inputProc := by
  unfold uas_acid_post
  cases s.x_shift <;> cases s.y_shift <;> cases s.do_acid_wobblers <;>
    cases s.color_matching <;> rfl

theorem uas_freq_acid (m : ModState) (s : AcidSettings) :
    (uas_freq m s).acid = m.acid := by
  unfold uas_freq
  split <;> rfl

theorem uas_freq_zoomOsc (m : ModState) (s : AcidSettings) :
    (uas_freq m s).zoomOsc = m.zoomOsc := by
  unfold uas_freq
  split <;> rfl

theorem uas_freq_inputProc (m : ModState) (s : AcidSettings) :
    (uas_freq m s).inputProc = m.inputProc := by
  unfold uas_freq
  split <;> rfl

theorem uas_freq_enabled (m : ModState) (s : AcidSettings) :
    (uas_freq m s).freqZoom.enabled = m.freqZoom.enabled := by
  unfold uas_freq
  split <;> rfl

theorem uas_freq_low_sens (m : ModState) (s : AcidSettings) (ls : ℚ)
    (hls : s.low_bin_sensitivity = some ls) :
    (uas_freq m s).freqZoom.low_bin_sensitivity = ls := by
  unfold uas_freq
  rw [if_pos (Or.inl (by rw [hls]; rfl)), hls]
  rfl

theorem uas_osc_acid (m : ModState) (s : AcidSettings) :
    (uas_osc m s).acid = m.acid := by
  unfold uas_osc
  cases s.use_test_zoom <;> cases s.use_test_shift <;>
    cases s.test_x_shift_increment <;> cases s.test_y_shift_increment <;> rfl

theorem uas_osc_inputProc (m : ModState) (s : AcidSettings) :
    (uas_osc m s).inputProc = m.inputProc := by
  unfold uas_osc
  cases s.use_test_zoom <;> cases s.use_test_shift <;>
    cases s.test_x_shift_increment <;> cases s.test_y_shift_increment <;> rfl

theorem uas_osc_freqZoom (m : ModState) (s : AcidSettings) :
    (uas_osc m s).freqZoom = m.freqZoom := by
  unfold uas_osc
  cases s.use_test_zoom <;> cases s.use_test_shift <;>
    cases s.test_x_shift_increment <;> cases s.test_y_shift_increment <;> rfl

theorem uas_osc_zoomOsc_of_none (m : ModState) (s : AcidSettings)
    (h : s.use_test_zoom = none) : (uas_osc m s).zoomOsc = m.zoomOsc := by
  unfold uas_osc
  rw [h]
  cases s.use_test_shift <;>
    cases s.test_x_shift_increment <;> cases s.test_y_shift_increment <;> rfl

theorem uas_osc_zoomOsc_of_some (m : ModState) (s : AcidSettings) (b : Bool)
    (h : s.use_test_zoom = some b) : (uas_osc m s).zoomOsc.enabled = b := by
  unfold uas_osc
  rw [h]
  cases s.use_test_shift <;>
    cases s.test_x_shift_increment <;> cases s.test_y_shift_increment <;> rfl

theorem update_acid_settings_zoom_of_direct (m : ModState) (s : AcidSettings)
    (v : ℚ) (hz : s.zoom_factor = some v) (hfft : s.binned_fft = none) :
    (update_acid_settings true m s).acid.zoom_factor = v := by
  unfold update_acid_settings
  rw [if_neg (by simp)]
  rw [uas_osc_acid, uas_freq_acid, uas_acid_post_zoom, uas_zoom_set _ _ v hz hfft]

theorem update_acid_settings_zoomOsc_of_none (m : ModState) (s : AcidSettings)
    (h : s.use_test_zoom = none) :
    (update_acid_settings true m s).zoomOsc = m.zoomOsc := by
  unfold update_acid_settings
  rw [if_neg (by simp)]
  rw [uas_osc_zoomOsc_of_none _ _ h, uas_freq_zoomOsc, uas_acid_post_zoomOsc,
    uas_zoom_zoomOsc, uas_acid_pre_zoomOsc, uas_input_zoomOsc]

theorem update_acid_settings_zoomOsc_of_some (m : ModState) (s : AcidSettings)
    (b : Bool) (h : s.use_test_zoom = some b) :
    (update_acid_settings true m s).zoomOsc.enabled = b := by
  unfold update_acid_settings
  rw [if_neg (by simp)]
  rw [uas_osc_zoomOsc_of_some _ _ b h]

theorem update_acid_settings_freq_enabled (m : ModState) (s : AcidSettings) :
    (update_acid_settings true m s).freqZoom.enabled = m.freqZoom.enabled := by
  unfold update_acid_settings
  rw [if_neg (by simp)]
  rw [uas_osc_freqZoom, uas_freq_enabled, uas_acid_post_freqZoom, uas_zoom_freqZoom,
    uas_acid_pre_freqZoom, uas_input_freqZoom]

theorem update_acid_settings_brightness (m : ModState) (s : AcidSettings) (b : ℚ)
    (hb : s.brightness = some b) :
    (update_acid_settings true m s).inputProc.brightness = b := by
  unfold update_acid_settings
  rw [if_neg (by simp)]
  rw [uas_osc_inputProc, uas_freq_inputProc, uas_acid_post_inputProc,
    uas_zoom_inputProc, uas_acid_pre_inputProc, uas_input_brightness _ _ b hb]

theorem update_acid_settings_strength (m : ModState) (s : AcidSettings) (a : ℚ)
    (ha : s.acid_strength = some a) :
    (update_acid_settings true m s).acid.acid_strength = a := by
  unfold update_acid_settings
  rw [if_neg (by simp)]
  rw [uas_osc_acid, uas_freq_acid, uas_acid_post_strength, uas_zoom_strength,
    uas_acid_pre_strength _ _ a ha]

theorem update_acid_settings_low_sens (m : ModState) (s : AcidSettings) (ls : ℚ)
    (hls : s.low_bin_sensitivity = some ls) :
    (update_acid_settings true m s).freqZoom.low_bin_sensitivity = ls := by
  unfold update_acid_settings
  rw [if_neg (by simp)]
  rw [uas_osc_freqZoom, uas_freq_low_sens _ _ ls hls]

theorem preReceive_zoomOsc_enabled (cfg : Config) (m : ModState) (fft : List ℚ) :
    (preReceive cfg m fft).zoomOsc.enabled = m.zoomOsc.enabled := by
  unfold preReceive
  cases h1 : cfg.use_acid_processor <;> cases h2 : m.zoomOsc.enabled <;>
    cases h3 : m.shiftOsc.enabled <;> cases h4 : m.freqZoom.enabled <;>
    simp [h1, h2, h3, h4, ZoomOscillator.update, ShiftOscillator.update,
      FreqZoomController.process_frequency_bins]

theorem preReceive_freqZoom_enabled (cfg : Config) (m : ModState) (fft : List ℚ) :
    (preReceive cfg m fft).freqZoom.enabled = m.freqZoom.enabled := by
  unfold preReceive
  cases h1 : cfg.use_acid_processor <;> cases h2 : m.zoomOsc.enabled <;>
    cases h3 : m.shiftOsc.enabled <;> cases h4 : m.freqZoom.enabled <;>
    simp [h1, h2, h3, h4, ZoomOscillator.update, ShiftOscillator.update,
      FreqZoomController.process_frequency_bins]

theorem preReceive_zoom_of_disabled (cfg : Config) (m : ModState) (fft : List ℚ)
    (hosc : m.zoomOsc.enabled = false) (hfz : m.freqZoom.enabled = false) :
    (preReceive cfg m fft).acid.zoom_factor = m.acid.zoom_factor := by
  unfold preReceive
  cases h1 : cfg.use_acid_processor <;> cases h3 : m.shiftOsc.enabled <;>
    simp [h1, h3, hosc, hfz, ShiftOscillator.update,
      AcidState.set_x_shift, AcidState.set_y_shift]

theorem applyUpdateSettings_of_none (cfg : Config) (m : ModState) (u : Update)
    (h : u.acid_settings = none) : applyUpdateSettings cfg m u = m := by
  unfold applyUpdateSettings
  rw [h]

theorem applyUpdateSettings_no_fft (cfg : Config) (m : ModState) (u : Update)
    (s : AcidSettings) (hacid : cfg.use_acid_processor = true)
    (hs : u.acid_settings = some s) (hfft : s.binned_fft = none) :
    applyUpdateSettings cfg m u = update_acid_settings true m s := by
  unfold applyUpdateSettings
  rw [hs]
  simp only [hacid, hfft]
  rfl

theorem applyUpdateSettings_bins (cfg : Config) (m : ModState) (u : Update)
    (s : AcidSettings) (bins : List ℚ) (hacid : cfg.use_acid_processor = true)
    (hs : u.acid_settings = some s) (hfb : s.binned_fft = some (some bins))
    (hen : (update_acid_settings true m s).zoomOsc.enabled = false) :
    (applyUpdateSettings cfg m u).acid.zoom_factor =
      ((update_acid_settings true m s).freqZoom.process_frequency_bins bins).2 := by
  unfold applyUpdateSettings
  rw [hs]
  simp only [hacid, hfb, hen]
  simp [AcidState.set_zoom_factor]

theorem handleTick_m (cfg : Config) (m : ModState) (inp : TickInput) :
    (handleTick cfg m inp).m =
      applyUpdateSettings cfg (preReceive cfg m inp.serverFft) inp.update := by
  unfold handleTick
  split <;> first
  | rfl
  | (split <;> rfl)

theorem handleTick_resolvedZoom (cfg : Config) (m : ModState) (inp : TickInput) :
    (handleTick cfg m inp).resolvedZoom =
      (applyUpdateSettings cfg (preReceive cfg m inp.serverFft)
        inp.update).acid.zoom_factor := by
  unfold handleTick
  split <;> first
  | rfl
  | (split <;> rfl)

theorem handleTick_empty_image (cfg : Config) (m : ModState) (inp : TickInput)
    (himg : cfg.input_mode_image = true) (hempty : inp.update.imageBytes = []) :
    (handleTick cfg m inp).response = Status.send_frame ∧
      (handleTick cfg m inp).slotWrite = none := by
  unfold handleTick
  rw [himg, hempty]
  exact ⟨rfl, rfl⟩

theorem handleTickFor_snd (cfg : Config) (sid : SessionId) (app : AppState)
    (inp : TickInput) :
    (handleTickFor cfg sid app inp).2 = handleTick cfg app.mod inp := by
  unfold handleTickFor
  rcases (handleTick cfg app.mod inp).slotWrite with _ | p <;> cases sid <;> rfl

theorem handleTickFor_fst_none (cfg : Config) (sid : SessionId) (app : AppState)
    (inp : TickInput) (h : (handleTick cfg app.mod inp).slotWrite = none) :
    (handleTickFor cfg sid app inp).1 =
      { app with mod := (handleTick cfg app.mod inp).m } := by
  simp only [handleTickFor]
  rw [h]

theorem handleTickFor_mod (cfg : Config) (sid : SessionId) (app : AppState)
    (inp : TickInput) :
    (handleTickFor cfg sid app inp).1.mod = (handleTick cfg app.mod inp).m := by
  simp only [handleTickFor]
  rcases (handleTick cfg app.mod inp).slotWrite with _ | p <;> cases sid <;> rfl

theorem countInvokes_append (a b : List StreamEvent) :
    countInvokes (a ++ b) = countInvokes a + countInvokes b := by
  simp [countInvokes, List.filter_append]

theorem streamStep_fst_fresh (cfg : Config) (safety : ParamSet → Bool)
    (firefox : Bool) (p : ParamSet) (st : NS) (hne : NS.ps p ≠ st) :
    (streamStep cfg safety firefox (some p) st).1 = NS.ps p := by
  simp only [streamStep]
  rw [if_neg hne]
  split <;> rfl

theorem streamStep_same (cfg : Config) (safety : ParamSet → Bool)
    (firefox : Bool) (p : ParamSet) :
    streamStep cfg safety firefox (some p) (NS.ps p) =
      (NS.ps p, [StreamEvent.sendFrameSignal, StreamEvent.sleepThrottle]) := by
  simp only [streamStep]
  simp

theorem streamStep_invokes_fresh (cfg : Config) (safety : ParamSet → Bool)
    (firefox : Bool) (p : ParamSet) (st : NS) (hne : NS.ps p ≠ st) :
    countInvokes (streamStep cfg safety firefox (some p) st).2 = 1 := by
  simp only [streamStep]
  rw [if_neg hne]
  split
  · rfl
  · split <;> split <;> rfl

/-- Claim C1, as stated, is false on the code: with the zoom oscillator
enabled and the incoming update supplying a direct `zoom_factor` of 7 (and no
`binned_fft` key), the zoom in force for the tick's invocation is 7, the
direct value — not the oscillator's computed value 1, which `main.py` line
193 installed at the start of the tick and `_update_acid_settings` line 377
then overwrote. -/
theorem C1_counterexample :
    modOsc.zoomOsc.enabled = true ∧
    modOsc.zoomOsc.update.2 = 1 ∧
    (handleTick cfg0 modOsc inpDirect).resolvedZoom = 7 ∧
    (handleTick cfg0 modOsc inpDirect).resolvedZoom ≠ modOsc.zoomOsc.update.2 := by
  refine ⟨rfl, ?_, ?_, ?_⟩ <;>
    norm_num [handleTick, applyUpdateSettings, preReceive, update_acid_settings,
      uas_input, uas_acid_pre, uas_zoom, uas_acid_post, uas_freq, uas_osc, optUpd,
      AcidState.set_zoom_factor, ZoomOscillator.update, cfg0, mod0, modOsc,
      inpDirect, sDirect, AcidSettings.empty, acid0, zoomOsc0, shiftOsc0,
      freqZoom0, inputProc0, base0]

/-- Claim C1 (amended): when the control-loop tick's update carries a direct
`zoom_factor` and no `binned_fft` key, the directly supplied value — not the
oscillator's computed value — is the zoom in force for that tick's
invocation, even when the zoom oscillator mode is enabled; the oscillator's
value only governs ticks whose update supplies no applicable direct zoom. -/
theorem C1_amended_direct_zoom_wins (cfg : Config) (m : ModState)
    (inp : TickInput) (s : AcidSettings) (v : ℚ)
    (hacid : cfg.use_acid_processor = true)
    (hosc : m.zoomOsc.enabled = true)
    (hs : inp.update.acid_settings = some s)
    (hz : s.zoom_factor = some v)
    (hfft : s.binned_fft = none) :
    (handleTick cfg m inp).resolvedZoom = v := by
  rw [handleTick_resolvedZoom,
    applyUpdateSettings_no_fft cfg _ inp.update s hacid hs hfft,
    update_acid_settings_zoom_of_direct _ s v hz hfft]

/-- Claim C1 (amended), witnessed at the counterexample's concrete input. -/
theorem C1_amended_witness :
    (handleTick cfg0 modOsc inpDirect).resolvedZoom = 7 :=
  C1_amended_direct_zoom_wins cfg0 modOsc inpDirect sDirect 7 rfl rfl rfl rfl rfl

/-- Claim C2: on a tick whose update carries non-null `binned_fft` data while
the zoom oscillator is disabled (and the update does not toggle it), the zoom
in force for the tick's invocation is the audio-reactive controller's output
on those bins (`main.py` lines 232-241), computed from the controller state
current after `_update_acid_settings`; in particular any direct `zoom_factor`
in the same update is ignored for the tick, since line 375 refuses it when a
`binned_fft` key is present. -/
theorem C2_bins_override (cfg : Config) (m : ModState) (inp : TickInput)
    (s : AcidSettings) (bins : List ℚ)
    (hacid : cfg.use_acid_processor = true)
    (hs : inp.update.acid_settings = some s)
    (hfb : s.binned_fft = some (some bins))
    (hosc : m.zoomOsc.enabled = false)
    (htz : s.use_test_zoom = none) :
    (handleTick cfg m inp).resolvedZoom =
      ((update_acid_settings true (preReceive cfg m inp.serverFft)
        s).freqZoom.process_frequency_bins bins).2 := by
  have hen : (update_acid_settings true (preReceive cfg m inp.serverFft)
      s).zoomOsc.enabled = false := by
    rw [update_acid_settings_zoomOsc_of_none _ s htz, preReceive_zoomOsc_enabled,
      hosc]
  rw [handleTick_resolvedZoom]
  exact applyUpdateSettings_bins cfg _ inp.update s bins hacid hs hfb hen

/-- Claim C2, witnessed: oscillator off, update carrying bins `[1/2]` and a
direct zoom 7; the tick resolves to the controller's output 3/2, not 7. -/
theorem C2_witness :
    (handleTick cfg0 mod0 inpFft).resolvedZoom = 3 / 2 := by
  have h := C2_bins_override cfg0 mod0 inpFft sFft [1 / 2] rfl rfl rfl rfl rfl
  rw [h]
  norm_num [update_acid_settings, preReceive, uas_input, uas_acid_pre, uas_zoom,
    uas_acid_post, uas_freq, uas_osc, optUpd, FreqZoomController.process_frequency_bins,
    Option.some_ne_none, cfg0, mod0, sFft, AcidSettings.empty, acid0, zoomOsc0,
    shiftOsc0, freqZoom0, inputProc0]

/-- Claim C3: when the streaming loop reads a fresh parameter set and then
reads a value-equal one, the pipeline is invoked exactly once across the two
iterations — the second read fails the `params.__dict__ == last_params.__dict__`
test of `main.py` line 285 and only sleeps for the throttle. -/
theorem C3_identical_params_invoke_once (cfg : Config) (safety : ParamSet → Bool)
    (firefox : Bool) (p : ParamSet) (st : NS) (hne : NS.ps p ≠ st) :
    countInvokes ((streamStep cfg safety firefox (some p) st).2 ++
      (streamStep cfg safety firefox (some p)
        (streamStep cfg safety firefox (some p) st).1).2) = 1 ∧
    (streamStep cfg safety firefox (some p)
      (streamStep cfg safety firefox (some p) st).1).2 =
      [StreamEvent.sendFrameSignal, StreamEvent.sleepThrottle] := by
  rw [countInvokes_append, streamStep_fst_fresh cfg safety firefox p st hne,
    streamStep_same, streamStep_invokes_fresh cfg safety firefox p st hne]
  exact ⟨rfl, rfl⟩

/-- Claim C3, witnessed: a fresh parameter set followed by the identical one
yields one invocation, the second iteration only sleeping. -/
theorem C3_witness :
    countInvokes ((streamStep cfg0 (fun x => false) true (some pset0) NS.empty).2 ++
      (streamStep cfg0 (fun x => false) true (some pset0)
        (streamStep cfg0 (fun x => false) true (some pset0) NS.empty).1).2) = 1 ∧
    (streamStep cfg0 (fun x => false) true (some pset0)
      (streamStep cfg0 (fun x => false) true (some pset0) NS.empty).1).2 =
      [StreamEvent.sendFrameSignal, StreamEvent.sleepThrottle] :=
  C3_identical_params_invoke_once cfg0 (fun x => false) true pset0 NS.empty
    (by decide)

/-- Claim C6 is right about the intended behaviour and the code breaks it:
on an empty (`None`) slot, `main.py` line 285 evaluates `params.__dict__`
before the `params is None` disjunct, so the iteration raises
`AttributeError` (and the generator dies) instead of sleeping for the
throttle and retrying; the pipeline is indeed not invoked, but the branch is
not total.  This theorem evaluates the embedded iteration at the failing
input. -/
theorem C6_none_slot_raises :
    streamStep cfg0 (fun x => false) true none NS.empty =
      (NS.empty, [StreamEvent.sendFrameSignal,
        StreamEvent.errorEvent "AttributeError"]) ∧
    StreamEvent.sleepThrottle ∉
      (streamStep cfg0 (fun x => false) true none NS.empty).2 ∧
    countInvokes (streamStep cfg0 (fun x => false) true none NS.empty).2 = 0 := by
  refine ⟨rfl, ?_, rfl⟩
  decide

/-- Claim C8: when the safety checker is enabled and flags the freshly
generated result, the iteration invokes the pipeline but emits no frame, no
feedback-buffer update and no error (`main.py` lines 291-297 null the image
and `continue`), the iteration still records the parameters as processed, and
a following iteration with fresh unflagged parameters emits a frame as
usual. -/
theorem C8_safety_suppression (cfg : Config) (safety : ParamSet → Bool)
    (firefox : Bool) (p : ParamSet) (st : NS)
    (hsc : cfg.safety_checker = true) (hflag : safety p = true)
    (hne : NS.ps p ≠ st) :
    (streamStep cfg safety firefox (some p) st).1 = NS.ps p ∧
    (streamStep cfg safety firefox (some p) st).2 =
      [StreamEvent.sendFrameSignal, StreamEvent.invoke p] ∧
    (∀ q : ParamSet, q ≠ p → safety q = false →
      StreamEvent.frame ∈ (streamStep cfg safety firefox (some q)
        (streamStep cfg safety firefox (some p) st).1).2) := by
  have hstep : streamStep cfg safety firefox (some p) st =
      (NS.ps p, [StreamEvent.sendFrameSignal, StreamEvent.invoke p]) := by
    simp only [streamStep]
    rw [if_neg hne, if_pos ⟨hsc, hflag⟩]
  refine ⟨by rw [hstep], by rw [hstep], ?_⟩
  intro q hq hsafe
  rw [hstep]
  simp only [streamStep]
  rw [if_neg fun hc => hq (by injection hc)]
  rw [if_neg fun hc => by rw [hsafe] at hc; exact Bool.false_ne_true hc.2]
  simp

/-- Claim C8, witnessed: `pset0` flagged by the checker yields only the
invocation; the following fresh `pset1` yields a frame. -/
theorem C8_witness :
    (streamStep cfgSafe (fun q => decide (q = pset0)) false (some pset0)
      NS.empty).2 = [StreamEvent.sendFrameSignal, StreamEvent.invoke pset0] ∧
    StreamEvent.frame ∈ (streamStep cfgSafe (fun q => decide (q = pset0)) false
      (some pset1) (streamStep cfgSafe (fun q => decide (q = pset0)) false
        (some pset0) NS.empty).1).2 := by
  have h := C8_safety_suppression cfgSafe (fun q => decide (q = pset0)) false
    pset0 NS.empty rfl (by decide) (by decide)
  exact ⟨h.2.1, h.2.2 pset1 (by decide) (by decide)⟩

/-- Claim C7: an image-mode update whose binary payload is empty makes the
control loop answer `{status: "send_frame"}` and leave every session's
latest-parameters slot exactly as it was (`main.py` lines 247-251 `continue`
before `update_data`); the tick completes normally, not as an error. -/
theorem C7_empty_image (cfg : Config) (sid : SessionId) (app : AppState)
    (inp : TickInput) (himg : cfg.input_mode_image = true)
    (hempty : inp.update.imageBytes = []) :
    (handleTickFor cfg sid app inp).2.response = Status.send_frame ∧
    (handleTickFor cfg sid app inp).1.slotA = app.slotA ∧
    (handleTickFor cfg sid app inp).1.slotB = app.slotB := by
  have h := handleTick_empty_image cfg app.mod inp himg hempty
  have hfst := handleTickFor_fst_none cfg sid app inp h.2
  refine ⟨?_, ?_, ?_⟩
  · rw [handleTickFor_snd]
    exact h.1
  · rw [hfst]
  · rw [hfst]

/-- Claim C7, witnessed at a concrete empty-payload tick. -/
theorem C7_witness :
    (handleTickFor cfg0 SessionId.A app0 inpEmptyPlain).2.response =
      Status.send_frame ∧
    (handleTickFor cfg0 SessionId.A app0 inpEmptyPlain).1.slotA = app0.slotA ∧
    (handleTickFor cfg0 SessionId.A app0 inpEmptyPlain).1.slotB = app0.slotB :=
  C7_empty_image cfg0 SessionId.A app0 inpEmptyPlain rfl rfl

/-- Claim C9: even when the image payload is empty, an `acid_settings`
sub-object carried by the same update is applied to the modulation state
before the resend signal goes out — `_update_acid_settings` runs at `main.py`
line 229, before the payload length test of line 247 — so the brightness,
acid-strength, oscillator-toggle and controller-sensitivity writes all land
while only the latest-parameters slot stays unchanged. -/
theorem C9_settings_applied_on_empty_image (cfg : Config) (m : ModState)
    (inp : TickInput) (s : AcidSettings) (b a ls : ℚ) (tz : Bool)
    (hacid : cfg.use_acid_processor = true)
    (himg : cfg.input_mode_image = true)
    (hempty : inp.update.imageBytes = [])
    (hs : inp.update.acid_settings = some s)
    (hb : s.brightness = some b)
    (ha : s.acid_strength = some a)
    (htz : s.use_test_zoom = some tz)
    (hls : s.low_bin_sensitivity = some ls)
    (hfft : s.binned_fft = none) :
    (handleTick cfg m inp).response = Status.send_frame ∧
    (handleTick cfg m inp).slotWrite = none ∧
    (handleTick cfg m inp).m.inputProc.brightness = b ∧
    (handleTick cfg m inp).m.acid.acid_strength = a ∧
    (handleTick cfg m inp).m.zoomOsc.enabled = tz ∧
    (handleTick cfg m inp).m.freqZoom.low_bin_sensitivity = ls := by
  have he := handleTick_empty_image cfg m inp himg hempty
  have hm : (handleTick cfg m inp).m =
      update_acid_settings true (preReceive cfg m inp.serverFft) s := by
    rw [handleTick_m, applyUpdateSettings_no_fft cfg _ inp.update s hacid hs hfft]
  refine ⟨he.1, he.2, ?_, ?_, ?_, ?_⟩
  · rw [hm, update_acid_settings_brightness _ s b hb]
  · rw [hm, update_acid_settings_strength _ s a ha]
  · rw [hm, update_acid_settings_zoomOsc_of_some _ s tz htz]
  · rw [hm, update_acid_settings_low_sens _ s ls hls]

/-- Claim C9, witnessed: an empty-payload tick carrying brightness 3/2,
strength 1/4, oscillator-on and sensitivity 1/5 lands all four writes while
answering `send_frame` and leaving the slot alone. -/
theorem C9_witness :
    (handleTick cfg0 mod0 inpEmpty9).response = Status.send_frame ∧
    (handleTick cfg0 mod0 inpEmpty9).slotWrite = none ∧
    (handleTick cfg0 mod0 inpEmpty9).m.inputProc.brightness = 3 / 2 ∧
    (handleTick cfg0 mod0 inpEmpty9).m.acid.acid_strength = 1 / 4 ∧
    (handleTick cfg0 mod0 inpEmpty9).m.zoomOsc.enabled = true ∧
    (handleTick cfg0 mod0 inpEmpty9).m.freqZoom.low_bin_sensitivity = 1 / 5 :=
  C9_settings_applied_on_empty_image cfg0 mod0 inpEmpty9 s9 (3 / 2) (1 / 4)
    (1 / 5) true rfl rfl rfl rfl rfl rfl rfl rfl rfl

/-- Claim C4, as stated, is false on the code: the modulation state is one
process-wide object (`App.__init__` builds a single `acid_processor`,
oscillator pair and controller, `main.py` lines 49-131), so a zoom setting
pushed by session A (7, replacing the initial 1) is what session B's next
tick — which carries no settings of its own — resolves to. -/
theorem C4_counterexample :
    mod0.acid.zoom_factor = 1 ∧
    inpPlain.update.acid_settings = none ∧
    (handleTickFor cfg0 SessionId.B
      (handleTickFor cfg0 SessionId.A app0 inpDirect).1 inpPlain).2.resolvedZoom
      = 7 := by
  refine ⟨rfl, rfl, ?_⟩
  norm_num [handleTickFor, handleTick, applyUpdateSettings, preReceive,
    update_acid_settings, uas_input, uas_acid_pre, uas_zoom, uas_acid_post,
    uas_freq, uas_osc, optUpd, AcidState.set_zoom_factor, Option.some_ne_none,
    cfg0, mod0, app0, inpDirect, inpPlain, sDirect, AcidSettings.empty, acid0,
    zoomOsc0, shiftOsc0, freqZoom0, inputProc0, base0]

/-- Claim C4 (amended): the ModulationState is shared by all sessions — it is
the one `App` instance's processors and oscillators — so a direct zoom value
committed while handling one session's message is exactly what any other
session's subsequent tick resolves, as long as no modulation source
intervenes (oscillators and controller off, no settings in the second
update). -/
theorem C4_amended_shared_modstate (cfg : Config) (app : AppState)
    (inpA inpB : TickInput) (sA : AcidSettings) (v : ℚ)
    (hacid : cfg.use_acid_processor = true)
    (hosc : app.mod.zoomOsc.enabled = false)
    (hfz : app.mod.freqZoom.enabled = false)
    (hsA : inpA.update.acid_settings = some sA)
    (hzA : sA.zoom_factor = some v)
    (hfftA : sA.binned_fft = none)
    (htzA : sA.use_test_zoom = none)
    (hsB : inpB.update.acid_settings = none) :
    (handleTickFor cfg SessionId.B
      (handleTickFor cfg SessionId.A app inpA).1 inpB).2.resolvedZoom = v := by
  have hmA : (handleTick cfg app.mod inpA).m =
      update_acid_settings true (preReceive cfg app.mod inpA.serverFft) sA := by
    rw [handleTick_m, applyUpdateSettings_no_fft cfg _ inpA.update sA hacid hsA hfftA]
  have hz1 : (handleTick cfg app.mod inpA).m.acid.zoom_factor = v := by
    rw [hmA, update_acid_settings_zoom_of_direct _ sA v hzA hfftA]
  have ho1 : (handleTick cfg app.mod inpA).m.zoomOsc.enabled = false := by
    rw [hmA, update_acid_settings_zoomOsc_of_none _ sA htzA,
      preReceive_zoomOsc_enabled, hosc]
  have hf1 : (handleTick cfg app.mod inpA).m.freqZoom.enabled = false := by
    rw [hmA, update_acid_settings_freq_enabled, preReceive_freqZoom_enabled, hfz]
  rw [handleTickFor_snd, handleTickFor_mod, handleTick_resolvedZoom,
    applyUpdateSettings_of_none _ _ _ hsB,
    preReceive_zoom_of_disabled _ _ _ ho1 hf1, hz1]

/-- Claim C4 (amended), witnessed at the counterexample's concrete input. -/
theorem C4_amended_witness :
    (handleTickFor cfg0 SessionId.B
      (handleTickFor cfg0 SessionId.A app0 inpDirect).1 inpPlain).2.resolvedZoom
      = 7 :=
  C4_amended_shared_modstate cfg0 app0 inpDirect inpPlain sDirect 7
    rfl rfl rfl rfl rfl rfl rfl rfl

/-- Claim C5, as stated, is false on the code.  First conjunct: a session
that stays idle forever (no arrivals) is never sent `{status: "timeout"}` —
after the first check the loop blocks in `receive_json` (`main.py` line 218)
and the check, being the first statement of the iteration, is only reached
again once a message arrives.  Second conjunct: a steadily active session
(arrivals at 5, 9, 12, each gap below the timeout 10) is nevertheless timed
out, because `last_time` is set once before the loop (line 160) and never
refreshed, so the check measures time since the connection began, not
inactivity. -/
theorem C5_counterexample :
    CtrlEvent.timeoutSent ∉ ctrlRun 10 0 0 [] ∧
    ctrlRun 10 0 0 [5, 9, 12] =
      [CtrlEvent.processed 5, CtrlEvent.processed 9, CtrlEvent.processed 12,
       CtrlEvent.timeoutSent, CtrlEvent.disconnected] := by
  constructor
  · norm_num [ctrlRun]
  · norm_num [ctrlRun]

/-- Claim C5 (amended): the timeout condition of `main.py` lines 164-167 is
evaluated at the top of each polling iteration; whenever such a check runs
with more than `timeout` elapsed since the connection began (not since the
last activity), the client is sent `{status: "timeout"}` and the session is
disconnected.  Because the loop then blocks awaiting the next message, an
idle session is only evicted when a further message arrives: with no
arrivals and the timeout unexpired at the final check, nothing more ever
happens. -/
theorem C5_amended_timeout (T t0 tNow : ℚ) (arrivals : List ℚ) (hT : 0 < T) :
    (T < tNow - t0 → ctrlRun T t0 tNow arrivals =
      [CtrlEvent.timeoutSent, CtrlEvent.disconnected]) ∧
    (tNow - t0 ≤ T → ctrlRun T t0 tNow [] = []) := by
  constructor
  · intro h
    unfold ctrlRun
    rw [if_pos ⟨hT, h⟩]
  · intro h
    unfold ctrlRun
    rw [if_neg fun hc => absurd hc.2 (not_lt.mpr h)]

/-- Claim C5 (amended), witnessed: a check at time 20 with timeout 10 since
connection time 0 sends the timeout status and disconnects. -/
theorem C5_amended_witness :
    ctrlRun 10 0 20 [] = [CtrlEvent.timeoutSent, CtrlEvent.disconnected] :=
  (C5_amended_timeout 10 0 20 [] (by norm_num)).1 (by norm_num)

/-- Claim C10: with a zero or negative configured timeout the guard
`self.args.timeout > 0` of `main.py` line 165 short-circuits the inactivity
condition on every iteration, so no `{status: "timeout"}` message is ever
sent and the session is never disconnected by the timeout path, whatever the
clock or the message arrivals. -/
theorem C10_nonpositive_timeout (T t0 : ℚ) (hT : T ≤ 0) :
    ∀ (tNow : ℚ) (arrivals : List ℚ),
      CtrlEvent.timeoutSent ∉ ctrlRun T t0 tNow arrivals ∧
      CtrlEvent.disconnected ∉ ctrlRun T t0 tNow arrivals := by
  intro tNow arrivals
  induction arrivals generalizing tNow with
  | nil =>
    unfold ctrlRun
    rw [if_neg fun hc => absurd hT (not_le.mpr hc.1)]
    simp
  | cons t rest ih =>
    unfold ctrlRun
    rw [if_neg fun hc => absurd hT (not_le.mpr hc.1)]
    simp only [List.mem_cons]
    constructor
    · rintro (h | h)
      · exact CtrlEvent.noConfusion h
      · exact (ih t).1 h
    · rintro (h | h)
      · exact CtrlEvent.noConfusion h
      · exact (ih t).2 h

/-- Claim C10, witnessed: timeout 0, arrivals long after connection, no
timeout message and no disconnect. -/
theorem C10_witness :
    CtrlEvent.timeoutSent ∉ ctrlRun 0 0 1000 [1, 2, 3] ∧
    CtrlEvent.disconnected ∉ ctrlRun 0 0 1000 [1, 2, 3] :=
  C10_nonpositive_timeout 0 0 (by norm_num) 1000 [1, 2, 3]
